import Mathlib

/-!
Shallow embedding of `src/__init__.py` (Blender add-on copying node-editor or
viewport screenshots to the clipboard).

Coordinates are modelled as rationals (exact arithmetic standing in for the
source's floats), machine side effects (the screenshot written to a temporary
file, the clipboard copy) as an explicit effect list, and host-API functions
that are not part of this repository (`View2D.view_to_region`,
`bpy_extras.view3d_utils.location_3d_to_region_2d`, each object's
`matrix_world`) as function-valued fields of the context.
-/

/-- A 2D point or vector (mathutils.Vector of length 2). -/
structure Vec2 where
  x : ℚ
  y : ℚ
deriving DecidableEq

/-- A 3D point (mathutils.Vector of length 3, a bound_box corner). -/
structure Vec3 where
  x : ℚ
  y : ℚ
  z : ℚ
deriving DecidableEq

/-- The fields of a bpy node that `compute_selected_bounds` reads:
`location_absolute`, `width`, `height` and the `select` flag. -/
structure BNode where
  locX : ℚ
  locY : ℚ
  width : ℚ
  height : ℚ
  select : Bool
deriving DecidableEq

/-- Region types of an editor area; the code only looks for WINDOW. -/
inductive RegionType where
  | WINDOW
  | HEADER
  | OTHER
deriving DecidableEq

/-- An area region. `view_to_region` is the host's
`region.view2d.view_to_region(x, y, clip=True)`, left abstract. -/
structure Region where
  type : RegionType
  view_to_region : ℚ → ℚ → ℚ × ℚ

/-- Dimensions of the bitmap opened with `Image.open` (PIL image). -/
structure PILImage where
  width : ℤ
  height : ℤ
deriving DecidableEq

/-- Object types; the viewport code compares `obj.type == 'MESH'`. -/
inductive ObjType where
  | MESH
  | CURVE
  | LIGHT
  | CAMERA
  | OTHER
deriving DecidableEq

/-- The fields of a bpy object the viewport capture reads: its type, its
local-space `bound_box` corners, and `matrix_world` as an abstract map. -/
structure VObject where
  type : ObjType
  bound_box : List Vec3
  matrix_world : Vec3 → Vec3

/-- Editor space types relevant to the two poll predicates. -/
inductive SpaceType where
  | NODE_EDITOR
  | VIEW_3D
  | OTHER
deriving DecidableEq

/-- Observable machine side effects of one command invocation: the screenshot
written to a file path, and a successful clipboard copy. -/
inductive Effect where
  | screenshot (path : String)
  | clipboardCopy
deriving DecidableEq

/-- Severity of an operator report. -/
inductive ReportLevel where
  | INFO
  | ERROR
deriving DecidableEq

/-- An operator report (`self.report({level}, message)`). -/
structure Report where
  level : ReportLevel
  message : String
deriving DecidableEq

/-- Return status of `execute`. -/
inductive OpResult where
  | FINISHED
  | CANCELLED
deriving DecidableEq

/-- Context for the node-editor command: `ui_scale` from preferences, the
space's `edit_tree` (None possible), the area's regions, the host tempdir and
the bitmap produced by the screenshot operator. -/
structure NodeContext where
  uiScale : ℚ
  editTree : Option (List BNode)
  regions : List Region
  tempdir : String
  screenshotImage : PILImage

/-- Context for the viewport command: the area's regions, the selected
objects, the host projection `location_3d_to_region_2d` (None when the point
is behind the view origin), the tempdir and the screenshot bitmap. -/
structure ViewportContext where
  regions : List Region
  selected_objects : List VObject
  location_3d_to_region_2d : Vec3 → Option Vec2
  tempdir : String
  screenshotImage : PILImage

/-- NODE_MARGIN constant from the source (line 11). -/
def NODE_MARGIN : ℚ := -50

/-- NODE_EXTRA_HEIGHT constant from the source (line 12). -/
def NODE_EXTRA_HEIGHT : ℚ := 0

/-- Python's int() applied to a rational: truncation toward zero. -/
def pyInt (q : ℚ) : ℤ := if 0 ≤ q then ⌊q⌋ else ⌈q⌉

/-- The ui-scaled lower corner of a node
(`Vector((x, y - height - NODE_EXTRA_HEIGHT)) * ui_scale`, lines 31-34). -/
def nodeVMin (uiScale : ℚ) (n : BNode) : Vec2 :=
  ⟨n.locX * uiScale, (n.locY - n.height - NODE_EXTRA_HEIGHT) * uiScale⟩

/-- The ui-scaled upper corner of a node
(`Vector((x + width, y)) * ui_scale`, lines 36-39). -/
def nodeVMax (uiScale : ℚ) (n : BNode) : Vec2 :=
  ⟨(n.locX + n.width) * uiScale, n.locY * uiScale⟩

/-- One iteration of the accumulation loop of `compute_selected_bounds`
(lines 26-44): unselected nodes are skipped, selected nodes shrink bmin and
grow bmax componentwise. -/
def boundsStep (uiScale : ℚ) (acc : Vec2 × Vec2) (n : BNode) : Vec2 × Vec2 :=
  if n.select = true then
    (⟨min acc.1.x (nodeVMin uiScale n).x, min acc.1.y (nodeVMin uiScale n).y⟩,
     ⟨max acc.2.x (nodeVMax uiScale n).x, max acc.2.y (nodeVMax uiScale n).y⟩)
  else acc

/-- compute_selected_bounds (source lines 14-49): with no edit tree the pair
((0,0),(0,0)) is returned untouched; otherwise the loop accumulates from the
sentinels (1e8, 1e8) and (-1e8, -1e8) and the margin is subtracted from bmin
and added to bmax. -/
def compute_selected_bounds (ctx : NodeContext) (margin : ℚ) : Vec2 × Vec2 :=
  match ctx.editTree with
  | none => (⟨0, 0⟩, ⟨0, 0⟩)
  | some nodes =>
      let p := nodes.foldl (boundsStep ctx.uiScale)
        (⟨100000000, 100000000⟩, ⟨-100000000, -100000000⟩)
      (⟨p.1.x - margin, p.1.y - margin⟩, ⟨p.2.x + margin, p.2.y + margin⟩)

/-- The loop of lines 54-58: first region of type WINDOW, if any. -/
def find_window_region (regions : List Region) : Option Region :=
  regions.find? (fun r => r.type == RegionType.WINDOW)

/-- The staging path of the node command: os.path.join(bpy.app.tempdir,
"numpy_magic_full.png") (line 67; POSIX join for a dir without a trailing
separator). -/
def node_tmp_path (tempdir : String) : String :=
  tempdir ++ "/numpy_magic_full.png"

/-- The staging path of the viewport command (line 106). -/
def viewport_tmp_path (tempdir : String) : String :=
  tempdir ++ "/viewport_screenshot.png"

/-- The four coordinates handed to `im.crop` (left, top, right, bottom). -/
structure CropBox where
  left : ℤ
  top : ℤ
  right : ℤ
  bottom : ℤ
deriving DecidableEq

/-- capture_node_area (source lines 51-86): fail when no WINDOW region
exists; otherwise compute the bounds, screenshot the region to the fixed
temp path, map both bound corners through `view_to_region` (clip=True),
flip the y axis against the image height and crop. -/
def capture_node_area (ctx : NodeContext) : Except String CropBox × List Effect :=
  match find_window_region ctx.regions with
  | none => (Except.error "Node editor window region not found", [])
  | some region =>
      let b := compute_selected_bounds ctx NODE_MARGIN
      let tmp := node_tmp_path ctx.tempdir
      let im := ctx.screenshotImage
      let p1 := region.view_to_region b.1.x b.1.y
      let p2 := region.view_to_region b.2.x b.2.y
      let y1t : ℚ := (im.height : ℚ) - p2.2
      let y2t : ℚ := (im.height : ℚ) - p1.2
      (Except.ok ⟨pyInt p1.1, pyInt y1t, pyInt p2.1, pyInt y2t⟩,
       [Effect.screenshot tmp])

/-- One iteration of the inner corner loop of the viewport capture (lines
123-132): project the world-space corner; a None projection leaves the
accumulator unchanged, otherwise bmin shrinks and bmax grows. -/
def vpCornerStep (ctx : ViewportContext) (o : VObject) (acc : Vec2 × Vec2)
    (corner : Vec3) : Vec2 × Vec2 :=
  match ctx.location_3d_to_region_2d (o.matrix_world corner) with
  | none => acc
  | some sc =>
      (⟨min acc.1.x sc.x, min acc.1.y sc.y⟩,
       ⟨max acc.2.x sc.x, max acc.2.y sc.y⟩)

/-- One iteration of the outer object loop (lines 120-132): `if
obj.bound_box:` skips objects with an empty corner sequence. -/
def vpObjectStep (ctx : ViewportContext) (acc : Vec2 × Vec2) (o : VObject) :
    Vec2 × Vec2 :=
  if o.bound_box.isEmpty then acc
  else o.bound_box.foldl (vpCornerStep ctx o) acc

/-- The crop rectangle of the viewport capture (lines 134-150): pad by 50
pixels, clamp bmin below by 0 and bmax above by the image dimensions, flip
the y axis, truncate to int. -/
def viewportCropBox (im : PILImage) (bmin bmax : Vec2) : CropBox :=
  let bminP : Vec2 := ⟨bmin.x - 50, bmin.y - 50⟩
  let bmaxP : Vec2 := ⟨bmax.x + 50, bmax.y + 50⟩
  let bminC : Vec2 := ⟨max 0 bminP.x, max 0 bminP.y⟩
  let bmaxC : Vec2 := ⟨min (im.width : ℚ) bmaxP.x, min (im.height : ℚ) bmaxP.y⟩
  ⟨pyInt bminC.x, pyInt ((im.height : ℚ) - bmaxC.y),
   pyInt bmaxC.x, pyInt ((im.height : ℚ) - bminC.y)⟩

/-- capture_viewport_screenshot (source lines 88-151): fail when no WINDOW
region exists; fail when no selected object has type MESH; otherwise
screenshot the region to the fixed temp path, accumulate the projected
bound-box corners of the selected mesh objects and crop. -/
def capture_viewport_screenshot (ctx : ViewportContext) :
    Except String CropBox × List Effect :=
  match find_window_region ctx.regions with
  | none => (Except.error "Viewport window region not found", [])
  | some _ =>
      let selected_objects :=
        ctx.selected_objects.filter (fun o => o.type == ObjType.MESH)
      if selected_objects.isEmpty then
        (Except.error "No mesh objects selected", [])
      else
        let tmp := viewport_tmp_path ctx.tempdir
        let im := ctx.screenshotImage
        let b := selected_objects.foldl (vpObjectStep ctx)
          (⟨100000000, 100000000⟩, ⟨-100000000, -100000000⟩)
        (Except.ok (viewportCropBox im b.1 b.2), [Effect.screenshot tmp])

/-- NODE_OT_copy_to_clipboard.poll (lines 161-167): space_data truthy, its
type NODE_EDITOR, and the pyperclipimg import present. -/
def NODE_OT_poll (space_data : Option SpaceType) (pciPresent : Bool) : Bool :=
  match space_data with
  | none => false
  | some t => (t == SpaceType.NODE_EDITOR) && pciPresent

/-- VIEW3D_OT_copy_viewport_to_clipboard.poll (lines 192-198). -/
def VIEW3D_OT_poll (space_data : Option SpaceType) (pciPresent : Bool) : Bool :=
  match space_data with
  | none => false
  | some t => (t == SpaceType.VIEW_3D) && pciPresent

/-- The message of line 181 and 212, built from the caught exception text. -/
def clipboardFailMsg (e : String) : String :=
  "Failed to copy to clipboard: " ++ e

/-- NODE_OT_copy_to_clipboard.execute (lines 169-182). `pciCopy` is the
outcome of the host call `pci.copy(crop)`: ok, or the exception message it
raised; a successful copy is the clipboardCopy effect. -/
def NODE_OT_execute (ctx : NodeContext) (pciCopy : Except String Unit) :
    (List Report × OpResult) × List Effect :=
  match capture_node_area ctx with
  | (Except.error e, effs) => (([⟨ReportLevel.ERROR, e⟩], OpResult.CANCELLED), effs)
  | (Except.ok _, effs) =>
      match pciCopy with
      | Except.ok _ =>
          (([⟨ReportLevel.INFO, "Image copied to clipboard"⟩], OpResult.FINISHED),
           effs ++ [Effect.clipboardCopy])
      | Except.error e =>
          (([⟨ReportLevel.ERROR, clipboardFailMsg e⟩], OpResult.CANCELLED), effs)

/-- VIEW3D_OT_copy_viewport_to_clipboard.execute (lines 200-213). -/
def VIEW3D_OT_execute (ctx : ViewportContext) (pciCopy : Except String Unit) :
    (List Report × OpResult) × List Effect :=
  match capture_viewport_screenshot ctx with
  | (Except.error e, effs) => (([⟨ReportLevel.ERROR, e⟩], OpResult.CANCELLED), effs)
  | (Except.ok _, effs) =>
      match pciCopy with
      | Except.ok _ =>
          (([⟨ReportLevel.INFO, "Viewport image copied to clipboard"⟩], OpResult.FINISHED),
           effs ++ [Effect.clipboardCopy])
      | Except.error e =>
          (([⟨ReportLevel.ERROR, clipboardFailMsg e⟩], OpResult.CANCELLED), effs)

/-- File paths an effect list writes to. -/
def writeTargets (effs : List Effect) : List String :=
  effs.filterMap (fun e => match e with
    | Effect.screenshot p => some p
    | Effect.clipboardCopy => none)

/-! ### Fold helper lemmas -/

theorem foldl_min_le_init (a : ℚ) (l : List ℚ) : l.foldl min a ≤ a := by
  induction l generalizing a with
  | nil => exact le_refl a
  | cons b l ih => exact le_trans (ih (min a b)) (min_le_left a b)

theorem foldl_max_init_le (a : ℚ) (l : List ℚ) : a ≤ l.foldl max a := by
  induction l generalizing a with
  | nil => exact le_refl a
  | cons b l ih => exact le_trans (le_max_left a b) (ih (max a b))

theorem foldl_min_le_mem (a b : ℚ) (l : List ℚ) (h : b ∈ l) :
    l.foldl min a ≤ b := by
  induction l generalizing a with
  | nil => cases h
  | cons c l ih =>
      rcases List.mem_cons.mp h with h1 | h1
      · subst h1
        exact le_trans (foldl_min_le_init (min a b) l) (min_le_right a b)
      · exact ih (min a c) h1

theorem foldl_max_mem_le (a b : ℚ) (l : List ℚ) (h : b ∈ l) :
    b ≤ l.foldl max a := by
  induction l generalizing a with
  | nil => cases h
  | cons c l ih =>
      rcases List.mem_cons.mp h with h1 | h1
      · subst h1
        exact le_trans (le_max_right a b) (foldl_max_init_le (max a b) l)
      · exact ih (max a c) h1

theorem foldl_min_cons (a b : ℚ) (l : List ℚ) :
    l.foldl min (min a b) = min a (l.foldl min b) := by
  induction l generalizing b with
  | nil => rfl
  | cons c l ih =>
      show l.foldl min (min (min a b) c) = min a ((c :: l).foldl min b)
      rw [min_assoc, ih]
      rfl

theorem foldl_max_cons (a b : ℚ) (l : List ℚ) :
    l.foldl max (max a b) = max a (l.foldl max b) := by
  induction l generalizing b with
  | nil => rfl
  | cons c l ih =>
      show l.foldl max (max (max a b) c) = max a ((c :: l).foldl max b)
      rw [max_assoc, ih]
      rfl

/-- The accumulation loop of compute_selected_bounds splits into four scalar
min/max folds over the selected nodes. -/
theorem boundsFold_eq (s : ℚ) (l : List BNode) (acc : Vec2 × Vec2) :
    l.foldl (boundsStep s) acc =
      (⟨((l.filter (fun n => n.select)).map (fun n => (nodeVMin s n).x)).foldl min acc.1.x,
        ((l.filter (fun n => n.select)).map (fun n => (nodeVMin s n).y)).foldl min acc.1.y⟩,
       ⟨((l.filter (fun n => n.select)).map (fun n => (nodeVMax s n).x)).foldl max acc.2.x,
        ((l.filter (fun n => n.select)).map (fun n => (nodeVMax s n).y)).foldl max acc.2.y⟩) := by
  induction l generalizing acc with
  | nil => rfl
  | cons n l ih =>
      by_cases hn : n.select = true
      · rw [List.foldl_cons, ih]
        simp [boundsStep, hn, List.filter_cons]
      · rw [List.foldl_cons, ih]
        simp [boundsStep, hn, List.filter_cons]

/-- For a selected node of the list, the accumulated bounds lie at or below
its scaled lower corner and at or above its scaled upper corner. -/
theorem boundsFold_contains (s : ℚ) (l : List BNode) (n : BNode)
    (acc : Vec2 × Vec2) (hm : n ∈ l) (hs : n.select = true) :
    (l.foldl (boundsStep s) acc).1.x ≤ (nodeVMin s n).x ∧
    (l.foldl (boundsStep s) acc).1.y ≤ (nodeVMin s n).y ∧
    (nodeVMax s n).x ≤ (l.foldl (boundsStep s) acc).2.x ∧
    (nodeVMax s n).y ≤ (l.foldl (boundsStep s) acc).2.y := by
  rw [boundsFold_eq]
  have hf : n ∈ l.filter (fun m => m.select) := List.mem_filter.mpr ⟨hm, hs⟩
  exact ⟨foldl_min_le_mem _ _ _ (List.mem_map_of_mem _ hf),
         foldl_min_le_mem _ _ _ (List.mem_map_of_mem _ hf),
         foldl_max_mem_le _ _ _ (List.mem_map_of_mem _ hf),
         foldl_max_mem_le _ _ _ (List.mem_map_of_mem _ hf)⟩

/-- C1 (amended): for a selection containing at least one selected node whose
ui-scaled width and ui-scaled height are both at least 100 = -2 * NODE_MARGIN,
the rectangle computed by compute_selected_bounds after the margin adjustment
with margin = NODE_MARGIN = -50 satisfies min <= max component-wise. -/
theorem C1_margin_min_le_max (ctx : NodeContext) (nodes : List BNode)
    (n : BNode) (ht : ctx.editTree = some nodes) (hm : n ∈ nodes)
    (hs : n.select = true) (hw : 100 ≤ n.width * ctx.uiScale)
    (hh : 100 ≤ n.height * ctx.uiScale) :
    (compute_selected_bounds ctx NODE_MARGIN).1.x ≤
      (compute_selected_bounds ctx NODE_MARGIN).2.x ∧
    (compute_selected_bounds ctx NODE_MARGIN).1.y ≤
      (compute_selected_bounds ctx NODE_MARGIN).2.y := by
  obtain ⟨h1, h2, h3, h4⟩ := boundsFold_contains ctx.uiScale nodes n
    (⟨100000000, 100000000⟩, ⟨-100000000, -100000000⟩) hm hs
  have hx : (nodeVMax ctx.uiScale n).x =
      (nodeVMin ctx.uiScale n).x + n.width * ctx.uiScale := by
    simp [nodeVMax, nodeVMin]; ring
  have hy : (nodeVMax ctx.uiScale n).y =
      (nodeVMin ctx.uiScale n).y + n.height * ctx.uiScale := by
    simp [nodeVMax, nodeVMin, NODE_EXTRA_HEIGHT]; ring
  simp only [compute_selected_bounds, ht, NODE_MARGIN]
  constructor
  · linarith
  · linarith

def c1wNode : BNode := ⟨0, 0, 200, 150, true⟩

def c1wCtx : NodeContext :=
  { uiScale := 1, editTree := some [c1wNode], regions := [],
    tempdir := "/tmp", screenshotImage := ⟨100, 100⟩ }

/-- Witness for C1 at a selected 200 x 150 node with ui_scale 1. -/
theorem C1_margin_min_le_max_witness :
    (compute_selected_bounds c1wCtx NODE_MARGIN).1.x ≤
      (compute_selected_bounds c1wCtx NODE_MARGIN).2.x ∧
    (compute_selected_bounds c1wCtx NODE_MARGIN).1.y ≤
      (compute_selected_bounds c1wCtx NODE_MARGIN).2.y :=
  C1_margin_min_le_max c1wCtx [c1wNode] c1wNode rfl
    (List.mem_singleton.mpr rfl) rfl
    (by norm_num [c1wNode, c1wCtx]) (by norm_num [c1wNode, c1wCtx])

def c1cNode : BNode := ⟨0, 0, 10, 10, true⟩

def c1cCtx : NodeContext :=
  { uiScale := 1, editTree := some [c1cNode], regions := [],
    tempdir := "/tmp", screenshotImage := ⟨100, 100⟩ }

/-- C1 counterexample: a single selected 10 x 10 node at the origin with
ui_scale 1 gives, after the margin adjustment with NODE_MARGIN = -50, the
rectangle ((50, 40), (-40, -50)), whose min exceeds its max in both
components. -/
theorem C1_counterexample :
    c1cCtx.editTree = some [c1cNode] ∧ c1cNode.select = true ∧
    ¬ ((compute_selected_bounds c1cCtx NODE_MARGIN).1.x ≤
         (compute_selected_bounds c1cCtx NODE_MARGIN).2.x ∧
       (compute_selected_bounds c1cCtx NODE_MARGIN).1.y ≤
         (compute_selected_bounds c1cCtx NODE_MARGIN).2.y) := by
  refine ⟨rfl, rfl, ?_⟩
  have h : compute_selected_bounds c1cCtx NODE_MARGIN =
      (⟨50, 40⟩, ⟨-40, -50⟩) := by
    simp [compute_selected_bounds, c1cCtx, c1cNode, boundsStep, nodeVMin,
      nodeVMax, NODE_MARGIN, NODE_EXTRA_HEIGHT, min_def, max_def]
    norm_num
  rw [h]
  norm_num

/-- Specification-side reading of C6, written from the spec's words: the
component-wise minimum over the selected nodes of each node's ui-scaled lower
corner and the component-wise maximum of their ui-scaled upper corners, with
the margin subtracted from the min corner and added to the max corner; none
when there is no edit tree or no node is selected. -/
def spec_selected_bounds (ctx : NodeContext) (margin : ℚ) :
    Option (Vec2 × Vec2) :=
  match ctx.editTree with
  | none => none
  | some nodes =>
      match nodes.filter (fun n => n.select) with
      | [] => none
      | n :: rest =>
          some
            (⟨(rest.map (fun m => (nodeVMin ctx.uiScale m).x)).foldl min
                 (nodeVMin ctx.uiScale n).x - margin,
              (rest.map (fun m => (nodeVMin ctx.uiScale m).y)).foldl min
                 (nodeVMin ctx.uiScale n).y - margin⟩,
             ⟨(rest.map (fun m => (nodeVMax ctx.uiScale m).x)).foldl max
                 (nodeVMax ctx.uiScale n).x + margin,
              (rest.map (fun m => (nodeVMax ctx.uiScale m).y)).foldl max
                 (nodeVMax ctx.uiScale n).y + margin⟩)

/-- C6 (amended): for a non-empty selection all of whose ui-scaled corners
lie within the sentinel range (lower corners at most 10^8 component-wise,
upper corners at least -10^8), compute_selected_bounds returns exactly the
component-wise min of the scaled lower corners and max of the scaled upper
corners with the margin applied symmetrically. -/
theorem C6_bounds_eq_spec (ctx : NodeContext) (margin : ℚ)
    (nodes : List BNode) (ht : ctx.editTree = some nodes)
    (hne : nodes.filter (fun n => n.select) ≠ [])
    (hin : ∀ n ∈ nodes, n.select = true →
      (nodeVMin ctx.uiScale n).x ≤ 100000000 ∧
      (nodeVMin ctx.uiScale n).y ≤ 100000000 ∧
      -100000000 ≤ (nodeVMax ctx.uiScale n).x ∧
      -100000000 ≤ (nodeVMax ctx.uiScale n).y) :
    spec_selected_bounds ctx margin =
      some (compute_selected_bounds ctx margin) := by
  obtain ⟨n, rest, hf⟩ : ∃ n rest,
      nodes.filter (fun m => m.select) = n :: rest := by
    cases hfe : nodes.filter (fun m => m.select) with
    | nil => exact absurd hfe hne
    | cons a l => exact ⟨a, l, rfl⟩
  have hhead : n ∈ nodes.filter (fun m => m.select) := by
    rw [hf]; exact List.mem_cons_self n rest
  have hnsel : n.select = true := (List.mem_filter.mp hhead).2
  have hnmem : n ∈ nodes := (List.mem_filter.mp hhead).1
  obtain ⟨hle1, hle2, hge1, hge2⟩ := hin n hnmem hnsel
  simp only [spec_selected_bounds, compute_selected_bounds, ht]
  rw [boundsFold_eq]
  simp only [hf, List.map_cons, List.foldl_cons]
  rw [foldl_min_cons, foldl_min_cons, foldl_max_cons, foldl_max_cons]
  rw [min_eq_right (le_trans (foldl_min_le_init _ _) hle1),
      min_eq_right (le_trans (foldl_min_le_init _ _) hle2),
      max_eq_right (le_trans hge1 (foldl_max_init_le _ _)),
      max_eq_right (le_trans hge2 (foldl_max_init_le _ _))]

def c6wNode : BNode := ⟨0, 0, 10, 10, true⟩

def c6wCtx : NodeContext :=
  { uiScale := 1, editTree := some [c6wNode], regions := [],
    tempdir := "/tmp", screenshotImage := ⟨100, 100⟩ }

/-- Witness for C6 at a single selected node near the origin. -/
theorem C6_bounds_eq_spec_witness :
    spec_selected_bounds c6wCtx NODE_MARGIN =
      some (compute_selected_bounds c6wCtx NODE_MARGIN) :=
  C6_bounds_eq_spec c6wCtx NODE_MARGIN [c6wNode] rfl
    (by simp [c6wNode])
    (by simp [c6wNode, c6wCtx, nodeVMin, nodeVMax, NODE_EXTRA_HEIGHT]; norm_num)

def c6cNode : BNode := ⟨200000000, 0, 10, 10, true⟩

def c6cCtx : NodeContext :=
  { uiScale := 1, editTree := some [c6cNode], regions := [],
    tempdir := "/tmp", screenshotImage := ⟨100, 100⟩ }

/-- C6 counterexample: a selected node whose scaled lower corner sits at
x = 2 * 10^8, beyond the sentinel 10^8, makes compute_selected_bounds report
min.x = 10^8 + 50 while the component-wise minimum over the selected nodes
is 2 * 10^8 + 50, so the claimed equality fails. -/
theorem C6_counterexample :
    c6cCtx.editTree = some [c6cNode] ∧ c6cNode.select = true ∧
    spec_selected_bounds c6cCtx NODE_MARGIN ≠
      some (compute_selected_bounds c6cCtx NODE_MARGIN) := by
  refine ⟨rfl, rfl, ?_⟩
  have h1 : spec_selected_bounds c6cCtx NODE_MARGIN =
      some (⟨200000050, 40⟩, ⟨199999960, -50⟩) := by
    simp [spec_selected_bounds, c6cCtx, c6cNode, nodeVMin, nodeVMax,
      NODE_MARGIN, NODE_EXTRA_HEIGHT, List.filter]
    norm_num
  have h2 : compute_selected_bounds c6cCtx NODE_MARGIN =
      (⟨100000050, 40⟩, ⟨199999960, -50⟩) := by
    simp [compute_selected_bounds, c6cCtx, c6cNode, boundsStep, nodeVMin,
      nodeVMax, NODE_MARGIN, NODE_EXTRA_HEIGHT, min_def, max_def]
    norm_num
  rw [h1, h2]
  simp only [ne_eq, Option.some.injEq, Prod.mk.injEq, Vec2.mk.injEq]
  norm_num

/-- C9 (amended): when the node editor has no edit tree,
compute_selected_bounds returns exactly ((0,0),(0,0)) for every margin (the
early return skips the margin adjustment), and, provided the area has a
WINDOW region, the node command still proceeds: the capture screenshots to
the staging path and returns a crop rather than an error. Without a WINDOW
region the command aborts on the region check regardless of the edit tree
(see the counterexample). -/
theorem C9_no_edit_tree (ctx : NodeContext) (m : ℚ) (r : Region)
    (ht : ctx.editTree = none)
    (hr : find_window_region ctx.regions = some r) :
    compute_selected_bounds ctx m = (⟨0, 0⟩, ⟨0, 0⟩) ∧
    ((capture_node_area ctx).1).isOk = true ∧
    (capture_node_area ctx).2 =
      [Effect.screenshot (node_tmp_path ctx.tempdir)] := by
  refine ⟨by simp [compute_selected_bounds, ht], ?_, ?_⟩ <;>
    simp [capture_node_area, hr, Except.isOk, Except.toBool]

def c9wRegion : Region := ⟨RegionType.WINDOW, fun x y => (x, y)⟩

def c9wCtx : NodeContext :=
  { uiScale := 1, editTree := none, regions := [c9wRegion],
    tempdir := "/tmp", screenshotImage := ⟨100, 100⟩ }

/-- Witness for C9 at a context with no edit tree and one WINDOW region. -/
theorem C9_no_edit_tree_witness :
    compute_selected_bounds c9wCtx NODE_MARGIN = (⟨0, 0⟩, ⟨0, 0⟩) ∧
    ((capture_node_area c9wCtx).1).isOk = true ∧
    (capture_node_area c9wCtx).2 =
      [Effect.screenshot (node_tmp_path c9wCtx.tempdir)] :=
  C9_no_edit_tree c9wCtx NODE_MARGIN c9wRegion rfl rfl

def c9cCtx : NodeContext :=
  { uiScale := 1, editTree := none, regions := [⟨RegionType.HEADER, fun x y => (x, y)⟩],
    tempdir := "/tmp", screenshotImage := ⟨100, 100⟩ }

/-- C9 counterexample: in a context with no edit tree whose area lacks a
WINDOW region, the node command does not proceed to screenshot and crop: the
capture aborts with the region error and writes nothing, so the claim's
unconditional "proceeds rather than aborting" fails. -/
theorem C9_counterexample :
    c9cCtx.editTree = none ∧
    (capture_node_area c9cCtx).1 =
      Except.error "Node editor window region not found" ∧
    ((capture_node_area c9cCtx).1).isOk = false ∧
    (capture_node_area c9cCtx).2 = [] :=
  ⟨rfl, rfl, rfl, rfl⟩

/-- C3: each command's poll is true exactly when space_data is present, its
editor type matches the command (NODE_EDITOR respectively VIEW_3D) and the
clipboard library import is present; so poll is false whenever the library
is absent or the editor type differs. -/
theorem C3_poll_gating (sd : Option SpaceType) (pci : Bool) :
    (NODE_OT_poll sd pci = true ↔
      sd = some SpaceType.NODE_EDITOR ∧ pci = true) ∧
    (VIEW3D_OT_poll sd pci = true ↔
      sd = some SpaceType.VIEW_3D ∧ pci = true) := by
  cases sd with
  | none => simp [NODE_OT_poll, VIEW3D_OT_poll]
  | some t => cases t <;> simp [NODE_OT_poll, VIEW3D_OT_poll]

/-- C5: when the area holds no WINDOW region, both capture functions return
their region error with no side effects, and both executes report that
error and cancel without a screenshot or clipboard attempt. -/
theorem C5_missing_window_region (nctx : NodeContext) (vctx : ViewportContext)
    (pc qc : Except String Unit)
    (hn : find_window_region nctx.regions = none)
    (hv : find_window_region vctx.regions = none) :
    capture_node_area nctx =
      (Except.error "Node editor window region not found", []) ∧
    capture_viewport_screenshot vctx =
      (Except.error "Viewport window region not found", []) ∧
    NODE_OT_execute nctx pc =
      (([⟨ReportLevel.ERROR, "Node editor window region not found"⟩],
        OpResult.CANCELLED), []) ∧
    VIEW3D_OT_execute vctx qc =
      (([⟨ReportLevel.ERROR, "Viewport window region not found"⟩],
        OpResult.CANCELLED), []) := by
  have h1 : capture_node_area nctx =
      (Except.error "Node editor window region not found", []) := by
    simp [capture_node_area, hn]
  have h2 : capture_viewport_screenshot vctx =
      (Except.error "Viewport window region not found", []) := by
    simp [capture_viewport_screenshot, hv]
  exact ⟨h1, h2, by simp [NODE_OT_execute, h1], by simp [VIEW3D_OT_execute, h2]⟩

def c5wNCtx : NodeContext :=
  { uiScale := 1, editTree := none, regions := [], tempdir := "/tmp",
    screenshotImage := ⟨100, 100⟩ }

def c5wVCtx : ViewportContext :=
  { regions := [], selected_objects := [],
    location_3d_to_region_2d := fun _ => none, tempdir := "/tmp",
    screenshotImage := ⟨100, 100⟩ }

/-- Witness for C5 at contexts whose areas have no regions at all. -/
theorem C5_missing_window_region_witness :
    capture_node_area c5wNCtx =
      (Except.error "Node editor window region not found", []) ∧
    capture_viewport_screenshot c5wVCtx =
      (Except.error "Viewport window region not found", []) ∧
    NODE_OT_execute c5wNCtx (Except.ok ()) =
      (([⟨ReportLevel.ERROR, "Node editor window region not found"⟩],
        OpResult.CANCELLED), []) ∧
    VIEW3D_OT_execute c5wVCtx (Except.ok ()) =
      (([⟨ReportLevel.ERROR, "Viewport window region not found"⟩],
        OpResult.CANCELLED), []) :=
  C5_missing_window_region c5wNCtx c5wVCtx (Except.ok ()) (Except.ok ()) rfl rfl

/-- C4: when the capture succeeds, a failing clipboard copy is caught and
reported as an ERROR whose message is the fixed text followed by the
exception message, with CANCELLED returned; a successful copy is reported
as INFO with FINISHED returned. Both commands behave alike. -/
theorem C4_clipboard_outcome (nctx : NodeContext) (vctx : ViewportContext)
    (e : String)
    (hn : ((capture_node_area nctx).1).isOk = true)
    (hv : ((capture_viewport_screenshot vctx).1).isOk = true) :
    (NODE_OT_execute nctx (Except.error e)).1 =
      ([⟨ReportLevel.ERROR, clipboardFailMsg e⟩], OpResult.CANCELLED) ∧
    (NODE_OT_execute nctx (Except.ok ())).1 =
      ([⟨ReportLevel.INFO, "Image copied to clipboard"⟩], OpResult.FINISHED) ∧
    (VIEW3D_OT_execute vctx (Except.error e)).1 =
      ([⟨ReportLevel.ERROR, clipboardFailMsg e⟩], OpResult.CANCELLED) ∧
    (VIEW3D_OT_execute vctx (Except.ok ())).1 =
      ([⟨ReportLevel.INFO, "Viewport image copied to clipboard"⟩],
       OpResult.FINISHED) ∧
    clipboardFailMsg e = "Failed to copy to clipboard: " ++ e := by
  rcases hcN : capture_node_area nctx with ⟨resN, effsN⟩
  rcases hcV : capture_viewport_screenshot vctx with ⟨resV, effsV⟩
  rw [hcN] at hn
  rw [hcV] at hv
  cases resN with
  | error m => simp [Except.isOk, Except.toBool] at hn
  | ok bN =>
      cases resV with
      | error m => simp [Except.isOk, Except.toBool] at hv
      | ok bV =>
          refine ⟨?_, ?_, ?_, ?_, rfl⟩ <;>
            simp [NODE_OT_execute, VIEW3D_OT_execute, hcN, hcV]

def c4wRegion : Region := ⟨RegionType.WINDOW, fun x y => (x, y)⟩

def c4wNCtx : NodeContext :=
  { uiScale := 1, editTree := some [], regions := [c4wRegion],
    tempdir := "/tmp", screenshotImage := ⟨100, 100⟩ }

def c4wObj : VObject :=
  { type := ObjType.MESH, bound_box := [⟨0, 0, 0⟩],
    matrix_world := fun v => v }

def c4wVCtx : ViewportContext :=
  { regions := [c4wRegion], selected_objects := [c4wObj],
    location_3d_to_region_2d := fun _ => none, tempdir := "/tmp",
    screenshotImage := ⟨100, 100⟩ }

/-- Witness for C4 at contexts whose captures succeed and a clipboard
exception with message "boom". -/
theorem C4_clipboard_outcome_witness :
    (NODE_OT_execute c4wNCtx (Except.error "boom")).1 =
      ([⟨ReportLevel.ERROR, clipboardFailMsg "boom"⟩], OpResult.CANCELLED) ∧
    (NODE_OT_execute c4wNCtx (Except.ok ())).1 =
      ([⟨ReportLevel.INFO, "Image copied to clipboard"⟩], OpResult.FINISHED) ∧
    (VIEW3D_OT_execute c4wVCtx (Except.error "boom")).1 =
      ([⟨ReportLevel.ERROR, clipboardFailMsg "boom"⟩], OpResult.CANCELLED) ∧
    (VIEW3D_OT_execute c4wVCtx (Except.ok ())).1 =
      ([⟨ReportLevel.INFO, "Viewport image copied to clipboard"⟩],
       OpResult.FINISHED) ∧
    clipboardFailMsg "boom" = "Failed to copy to clipboard: " ++ "boom" :=
  C4_clipboard_outcome c4wNCtx c4wVCtx "boom" rfl rfl

/-- The effect list of the node capture is empty or the single screenshot
write to the fixed staging path. -/
theorem capture_node_area_effects (ctx : NodeContext) :
    (capture_node_area ctx).2 = [] ∨
    (capture_node_area ctx).2 =
      [Effect.screenshot (node_tmp_path ctx.tempdir)] := by
  unfold capture_node_area
  cases find_window_region ctx.regions <;> simp

/-- The effect list of the viewport capture is empty or the single
screenshot write to the fixed staging path. -/
theorem capture_viewport_effects (ctx : ViewportContext) :
    (capture_viewport_screenshot ctx).2 = [] ∨
    (capture_viewport_screenshot ctx).2 =
      [Effect.screenshot (viewport_tmp_path ctx.tempdir)] := by
  unfold capture_viewport_screenshot
  cases find_window_region ctx.regions with
  | none => simp
  | some r =>
      by_cases hs :
        (ctx.selected_objects.filter (fun o => o.type == ObjType.MESH)).isEmpty
      <;> simp [hs]

/-- Every file write of a node command invocation targets the fixed node
staging path. -/
theorem node_execute_writes (ctx : NodeContext) (pc : Except String Unit) :
    writeTargets (NODE_OT_execute ctx pc).2 ⊆ [node_tmp_path ctx.tempdir] := by
  rcases hc : capture_node_area ctx with ⟨res, effs⟩
  have he := capture_node_area_effects ctx
  rw [hc] at he
  dsimp only at he
  cases res <;> cases pc <;>
    rcases he with he | he <;>
      simp [NODE_OT_execute, hc, he, writeTargets, List.filterMap_append]

/-- Every file write of a viewport command invocation targets the fixed
viewport staging path. -/
theorem viewport_execute_writes (ctx : ViewportContext)
    (pc : Except String Unit) :
    writeTargets (VIEW3D_OT_execute ctx pc).2 ⊆
      [viewport_tmp_path ctx.tempdir] := by
  rcases hc : capture_viewport_screenshot ctx with ⟨res, effs⟩
  have he := capture_viewport_effects ctx
  rw [hc] at he
  dsimp only at he
  cases res <;> cases pc <;>
    rcases he with he | he <;>
      simp [VIEW3D_OT_execute, hc, he, writeTargets, List.filterMap_append]

/-- C7: the staging path of each command is a fixed name under the host
tempdir, so any two invocations of the same command over the same tempdir
stage to the identical path, and every file-system write of an invocation
targets exactly that path. -/
theorem C7_fixed_temp_path (nctx nctx' : NodeContext)
    (vctx vctx' : ViewportContext) (pc pc' qc qc' : Except String Unit)
    (hn : nctx'.tempdir = nctx.tempdir) (hv : vctx'.tempdir = vctx.tempdir) :
    node_tmp_path nctx'.tempdir = node_tmp_path nctx.tempdir ∧
    viewport_tmp_path vctx'.tempdir = viewport_tmp_path vctx.tempdir ∧
    writeTargets (NODE_OT_execute nctx pc).2 ⊆
      [node_tmp_path nctx.tempdir] ∧
    writeTargets (NODE_OT_execute nctx' pc').2 ⊆
      [node_tmp_path nctx.tempdir] ∧
    writeTargets (VIEW3D_OT_execute vctx qc).2 ⊆
      [viewport_tmp_path vctx.tempdir] ∧
    writeTargets (VIEW3D_OT_execute vctx' qc').2 ⊆
      [viewport_tmp_path vctx.tempdir] := by
  refine ⟨by rw [hn], by rw [hv],
    node_execute_writes nctx pc, ?_,
    viewport_execute_writes vctx qc, ?_⟩
  · rw [← hn]; exact node_execute_writes nctx' pc'
  · rw [← hv]; exact viewport_execute_writes vctx' qc'

def c7wNCtx : NodeContext :=
  { uiScale := 1, editTree := none,
    regions := [⟨RegionType.WINDOW, fun x y => (x, y)⟩],
    tempdir := "/tmp", screenshotImage := ⟨100, 100⟩ }

def c7wNCtx2 : NodeContext :=
  { uiScale := 2, editTree := some [], regions := [],
    tempdir := "/tmp", screenshotImage := ⟨200, 200⟩ }

def c7wVCtx : ViewportContext :=
  { regions := [⟨RegionType.WINDOW, fun x y => (x, y)⟩],
    selected_objects := [],
    location_3d_to_region_2d := fun _ => none, tempdir := "/tmp",
    screenshotImage := ⟨100, 100⟩ }

def c7wVCtx2 : ViewportContext :=
  { regions := [], selected_objects := [],
    location_3d_to_region_2d := fun _ => none, tempdir := "/tmp",
    screenshotImage := ⟨200, 200⟩ }

/-- Witness for C7 at two invocations of each command over tempdir /tmp. -/
theorem C7_fixed_temp_path_witness :
    node_tmp_path c7wNCtx2.tempdir = node_tmp_path c7wNCtx.tempdir ∧
    viewport_tmp_path c7wVCtx2.tempdir = viewport_tmp_path c7wVCtx.tempdir ∧
    writeTargets (NODE_OT_execute c7wNCtx (Except.ok ())).2 ⊆
      [node_tmp_path c7wNCtx.tempdir] ∧
    writeTargets (NODE_OT_execute c7wNCtx2 (Except.ok ())).2 ⊆
      [node_tmp_path c7wNCtx.tempdir] ∧
    writeTargets (VIEW3D_OT_execute c7wVCtx (Except.ok ())).2 ⊆
      [viewport_tmp_path c7wVCtx.tempdir] ∧
    writeTargets (VIEW3D_OT_execute c7wVCtx2 (Except.ok ())).2 ⊆
      [viewport_tmp_path c7wVCtx.tempdir] :=
  C7_fixed_temp_path c7wNCtx c7wNCtx2 c7wVCtx c7wVCtx2
    (Except.ok ()) (Except.ok ()) (Except.ok ()) (Except.ok ()) rfl rfl

/-- C8 (amended): when the area has a WINDOW region and no selected object
of type MESH exists, the viewport capture returns the error "No mesh objects
selected" with no side effects (no temp file written, no clipboard change),
and execute reports it and cancels. -/
theorem C8_no_mesh_selected (ctx : ViewportContext) (r : Region)
    (pc : Except String Unit)
    (hr : find_window_region ctx.regions = some r)
    (hm : ctx.selected_objects.filter (fun o => o.type == ObjType.MESH) = []) :
    capture_viewport_screenshot ctx =
      (Except.error "No mesh objects selected", []) ∧
    VIEW3D_OT_execute ctx pc =
      (([⟨ReportLevel.ERROR, "No mesh objects selected"⟩],
        OpResult.CANCELLED), []) := by
  have h1 : capture_viewport_screenshot ctx =
      (Except.error "No mesh objects selected", []) := by
    simp [capture_viewport_screenshot, hr, hm]
  exact ⟨h1, by simp [VIEW3D_OT_execute, h1]⟩

def c8wRegion : Region := ⟨RegionType.WINDOW, fun x y => (x, y)⟩

def c8wCtx : ViewportContext :=
  { regions := [c8wRegion],
    selected_objects := [{ type := ObjType.CAMERA, bound_box := [⟨0, 0, 0⟩],
                           matrix_world := fun v => v }],
    location_3d_to_region_2d := fun _ => some ⟨5, 5⟩, tempdir := "/tmp",
    screenshotImage := ⟨100, 100⟩ }

/-- Witness for C8 at a viewport whose only selected object is a camera. -/
theorem C8_no_mesh_selected_witness :
    capture_viewport_screenshot c8wCtx =
      (Except.error "No mesh objects selected", []) ∧
    VIEW3D_OT_execute c8wCtx (Except.ok ()) =
      (([⟨ReportLevel.ERROR, "No mesh objects selected"⟩],
        OpResult.CANCELLED), []) :=
  C8_no_mesh_selected c8wCtx c8wRegion (Except.ok ()) rfl rfl

def c8cCtx : ViewportContext :=
  { regions := [], selected_objects := [],
    location_3d_to_region_2d := fun _ => none, tempdir := "/tmp",
    screenshotImage := ⟨100, 100⟩ }

/-- C8 counterexample: in a context with no WINDOW region and no selected
mesh object, the capture returns the region error, not "No mesh objects
selected", so the unconditional claim fails. -/
theorem C8_counterexample :
    c8cCtx.selected_objects.filter (fun o => o.type == ObjType.MESH) = [] ∧
    (capture_viewport_screenshot c8cCtx).1 =
      Except.error "Viewport window region not found" ∧
    (capture_viewport_screenshot c8cCtx).1 ≠
      Except.error "No mesh objects selected" := by
  refine ⟨rfl, rfl, ?_⟩
  intro h
  have h2 : "Viewport window region not found" = "No mesh objects selected" := by
    have h1 : (capture_viewport_screenshot c8cCtx).1 =
        Except.error "Viewport window region not found" := rfl
    rw [h1] at h
    exact Except.error.inj h
  simp at h2

/-- Replacing the selection by any list with the same MESH-filtered content
leaves the viewport capture unchanged: the capture reads the selection only
through the filter of line 101. -/
theorem capture_selected_congr (ctx : ViewportContext) (l : List VObject)
    (h : l.filter (fun x => x.type == ObjType.MESH) =
         ctx.selected_objects.filter (fun x => x.type == ObjType.MESH)) :
    capture_viewport_screenshot { ctx with selected_objects := l } =
      capture_viewport_screenshot ctx := by
  have hstep : vpObjectStep { ctx with selected_objects := l } =
      vpObjectStep ctx := rfl
  unfold capture_viewport_screenshot
  dsimp only
  rw [h, hstep]

/-- C10: only selected objects of type MESH contribute to the viewport
rectangle and to the no-selection error check: prepending a non-MESH object
to the selection leaves the capture's result and effects unchanged, as does
discarding every non-MESH object. -/
theorem C10_only_mesh_counted (ctx : ViewportContext) (o : VObject)
    (ho : o.type ≠ ObjType.MESH) :
    capture_viewport_screenshot
        { ctx with selected_objects := o :: ctx.selected_objects } =
      capture_viewport_screenshot ctx ∧
    capture_viewport_screenshot
        { ctx with selected_objects :=
            ctx.selected_objects.filter (fun x => x.type == ObjType.MESH) } =
      capture_viewport_screenshot ctx := by
  constructor
  · refine capture_selected_congr ctx _ ?_
    rw [List.filter_cons_of_neg]
    simp [ho]
  · refine capture_selected_congr ctx _ ?_
    rw [List.filter_filter]
    simp

def c10wObj : VObject :=
  { type := ObjType.CAMERA, bound_box := [⟨1, 2, 3⟩],
    matrix_world := fun v => v }

def c10wCtx : ViewportContext :=
  { regions := [⟨RegionType.WINDOW, fun x y => (x, y)⟩],
    selected_objects := [{ type := ObjType.MESH, bound_box := [⟨0, 0, 0⟩],
                           matrix_world := fun v => v }],
    location_3d_to_region_2d := fun _ => some ⟨5, 5⟩, tempdir := "/tmp",
    screenshotImage := ⟨100, 100⟩ }

/-- Witness for C10: adding a selected camera changes nothing. -/
theorem C10_only_mesh_counted_witness :
    capture_viewport_screenshot
        { c10wCtx with selected_objects :=
            c10wObj :: c10wCtx.selected_objects } =
      capture_viewport_screenshot c10wCtx ∧
    capture_viewport_screenshot
        { c10wCtx with selected_objects :=
            c10wCtx.selected_objects.filter (fun x => x.type == ObjType.MESH) } =
      capture_viewport_screenshot c10wCtx :=
  C10_only_mesh_counted c10wCtx c10wObj (by decide)

/-- Accumulator q extends accumulator p: smaller min corner, larger max. -/
def boundsWiden (p q : Vec2 × Vec2) : Prop :=
  q.1.x ≤ p.1.x ∧ q.1.y ≤ p.1.y ∧ p.2.x ≤ q.2.x ∧ p.2.y ≤ q.2.y

/-- The accumulator p contains the point v. -/
def boundsContain (p : Vec2 × Vec2) (v : Vec2) : Prop :=
  p.1.x ≤ v.x ∧ p.1.y ≤ v.y ∧ v.x ≤ p.2.x ∧ v.y ≤ p.2.y

theorem boundsWiden_refl (p : Vec2 × Vec2) : boundsWiden p p :=
  ⟨le_refl _, le_refl _, le_refl _, le_refl _⟩

theorem boundsWiden_trans (p q r : Vec2 × Vec2) (h1 : boundsWiden p q)
    (h2 : boundsWiden q r) : boundsWiden p r :=
  ⟨le_trans h2.1 h1.1, le_trans h2.2.1 h1.2.1,
   le_trans h1.2.2.1 h2.2.2.1, le_trans h1.2.2.2 h2.2.2.2⟩

theorem boundsContain_of_widen (p q : Vec2 × Vec2) (v : Vec2)
    (hc : boundsContain p v) (hw : boundsWiden p q) : boundsContain q v :=
  ⟨le_trans hw.1 hc.1, le_trans hw.2.1 hc.2.1,
   le_trans hc.2.2.1 hw.2.2.1, le_trans hc.2.2.2 hw.2.2.2⟩

theorem vpCornerStep_widens (ctx : ViewportContext) (o : VObject)
    (acc : Vec2 × Vec2) (c : Vec3) :
    boundsWiden acc (vpCornerStep ctx o acc c) := by
  unfold vpCornerStep
  cases ctx.location_3d_to_region_2d (o.matrix_world c) with
  | none => exact boundsWiden_refl acc
  | some sc =>
      exact ⟨min_le_left _ _, min_le_left _ _, le_max_left _ _, le_max_left _ _⟩

theorem vpCornerFold_widens (ctx : ViewportContext) (o : VObject)
    (acc : Vec2 × Vec2) (l : List Vec3) :
    boundsWiden acc (l.foldl (vpCornerStep ctx o) acc) := by
  induction l generalizing acc with
  | nil => exact boundsWiden_refl acc
  | cons c l ih =>
      exact boundsWiden_trans _ _ _ (vpCornerStep_widens ctx o acc c)
        (ih (vpCornerStep ctx o acc c))

theorem vpObjectStep_widens (ctx : ViewportContext) (acc : Vec2 × Vec2)
    (o : VObject) : boundsWiden acc (vpObjectStep ctx acc o) := by
  unfold vpObjectStep
  by_cases h : o.bound_box.isEmpty <;> simp [h]
  · exact boundsWiden_refl acc
  · exact vpCornerFold_widens ctx o acc o.bound_box

theorem vpObjectFold_widens (ctx : ViewportContext) (acc : Vec2 × Vec2)
    (l : List VObject) :
    boundsWiden acc (l.foldl (vpObjectStep ctx) acc) := by
  induction l generalizing acc with
  | nil => exact boundsWiden_refl acc
  | cons o l ih =>
      exact boundsWiden_trans _ _ _ (vpObjectStep_widens ctx acc o)
        (ih (vpObjectStep ctx acc o))

/-- After folding the corners of one object, a corner that projected to v is
contained in the accumulator. -/
theorem vpCornerFold_contains (ctx : ViewportContext) (o : VObject)
    (acc : Vec2 × Vec2) (l : List Vec3) (c : Vec3) (v : Vec2)
    (hm : c ∈ l) (hp : ctx.location_3d_to_region_2d (o.matrix_world c) = some v) :
    boundsContain (l.foldl (vpCornerStep ctx o) acc) v := by
  induction l generalizing acc with
  | nil => cases hm
  | cons c' l ih =>
      rcases List.mem_cons.mp hm with h1 | h1
      · subst h1
        have hstep : boundsContain (vpCornerStep ctx o acc c) v := by
          unfold vpCornerStep
          rw [hp]
          exact ⟨min_le_right _ _, min_le_right _ _,
                 le_max_right _ _, le_max_right _ _⟩
        exact boundsContain_of_widen _ _ v hstep
          (vpCornerFold_widens ctx o (vpCornerStep ctx o acc c) l)
      · exact ih (vpCornerStep ctx o acc c') h1

/-- After folding all objects, any projected corner of a member object is
contained in the accumulator. -/
theorem vpObjectFold_contains (ctx : ViewportContext) (acc : Vec2 × Vec2)
    (l : List VObject) (o : VObject) (c : Vec3) (v : Vec2)
    (ho : o ∈ l) (hc : c ∈ o.bound_box)
    (hp : ctx.location_3d_to_region_2d (o.matrix_world c) = some v) :
    boundsContain (l.foldl (vpObjectStep ctx) acc) v := by
  induction l generalizing acc with
  | nil => cases ho
  | cons o' l ih =>
      rcases List.mem_cons.mp ho with h1 | h1
      · subst h1
        have hne : o.bound_box.isEmpty = false := by
          cases hb : o.bound_box with
          | nil => rw [hb] at hc; cases hc
          | cons a t => rfl
        have hstep : boundsContain (vpObjectStep ctx acc o) v := by
          unfold vpObjectStep
          rw [hne]
          simp only [Bool.false_eq_true, if_false]
          exact vpCornerFold_contains ctx o acc o.bound_box c v hc hp
        exact boundsContain_of_widen _ _ v hstep
          (vpObjectFold_widens ctx (vpObjectStep ctx acc o) l)
      · exact ih (vpObjectStep ctx acc o') h1

theorem pyInt_nonneg_eq_floor (q : ℚ) (h : 0 ≤ q) : pyInt q = ⌊q⌋ := if_pos h

theorem pyInt_nonneg (q : ℚ) (h : 0 ≤ q) : 0 ≤ pyInt q := by
  rw [pyInt_nonneg_eq_floor q h]
  exact Int.floor_nonneg.mpr h

theorem pyInt_le_pyInt_of_nonneg (a b : ℚ) (ha : 0 ≤ a) (hab : a ≤ b) :
    pyInt a ≤ pyInt b := by
  rw [pyInt_nonneg_eq_floor a ha, pyInt_nonneg_eq_floor b (le_trans ha hab)]
  exact Int.floor_mono hab

theorem pyInt_le_int (q : ℚ) (n : ℤ) (h0 : 0 ≤ q) (h : q ≤ (n : ℚ)) :
    pyInt q ≤ n := by
  rw [pyInt_nonneg_eq_floor q h0]
  calc ⌊q⌋ ≤ ⌊(n : ℚ)⌋ := Int.floor_mono h
    _ = n := Int.floor_intCast n

/-- Padding by 50 then clamping (below by 0, above by w) keeps the pair
ordered and inside [0, w] as soon as one witness point v lies in [0, w]
between m and M. -/
theorem clamp_pair_bounds (m M v w : ℚ) (h1 : m ≤ v) (h2 : v ≤ M)
    (h3 : 0 ≤ v) (h4 : v ≤ w) :
    0 ≤ max 0 (m - 50) ∧ max 0 (m - 50) ≤ min w (M + 50) ∧
    min w (M + 50) ≤ w := by
  refine ⟨le_max_left _ _, ?_, min_le_left _ _⟩
  rcases le_or_lt (m - 50) 0 with hm | hm
  · rw [max_eq_left hm]
    exact le_min (le_trans h3 h4) (by linarith)
  · rw [max_eq_right (le_of_lt hm)]
    exact le_min (by linarith) (by linarith)

/-- When the accumulated bounds contain a point inside the image, the crop
rectangle of the viewport capture lies inside the image bounds in order. -/
theorem viewportCropBox_within (im : PILImage) (b : Vec2 × Vec2) (v : Vec2)
    (hcon : boundsContain b v)
    (hx0 : 0 ≤ v.x) (hxw : v.x ≤ (im.width : ℚ))
    (hy0 : 0 ≤ v.y) (hyh : v.y ≤ (im.height : ℚ)) :
    0 ≤ (viewportCropBox im b.1 b.2).left ∧
    (viewportCropBox im b.1 b.2).left ≤ (viewportCropBox im b.1 b.2).right ∧
    (viewportCropBox im b.1 b.2).right ≤ im.width ∧
    0 ≤ (viewportCropBox im b.1 b.2).top ∧
    (viewportCropBox im b.1 b.2).top ≤ (viewportCropBox im b.1 b.2).bottom ∧
    (viewportCropBox im b.1 b.2).bottom ≤ im.height := by
  obtain ⟨hc1, hc2, hc3, hc4⟩ := hcon
  obtain ⟨hx1, hx2, hx3⟩ :=
    clamp_pair_bounds b.1.x b.2.x v.x (im.width : ℚ) hc1 hc3 hx0 hxw
  obtain ⟨hy1, hy2, hy3⟩ :=
    clamp_pair_bounds b.1.y b.2.y v.y (im.height : ℚ) hc2 hc4 hy0 hyh
  have htop0 : (0 : ℚ) ≤ (im.height : ℚ) - min (im.height : ℚ) (b.2.y + 50) := by
    have := min_le_left (im.height : ℚ) (b.2.y + 50)
    linarith
  have htb : (im.height : ℚ) - min (im.height : ℚ) (b.2.y + 50) ≤
      (im.height : ℚ) - max 0 (b.1.y - 50) := by linarith
  have hbh : (im.height : ℚ) - max 0 (b.1.y - 50) ≤ (im.height : ℚ) := by
    linarith
  unfold viewportCropBox
  dsimp only
  refine ⟨pyInt_nonneg _ hx1,
    pyInt_le_pyInt_of_nonneg _ _ hx1 hx2,
    pyInt_le_int _ _ (le_trans hx1 hx2) hx3,
    pyInt_nonneg _ htop0,
    pyInt_le_pyInt_of_nonneg _ _ htop0 htb,
    pyInt_le_int _ _ (le_trans htop0 htb) hbh⟩

/-- C2 (amended, viewport variant): whenever some bound-box corner of a
selected MESH object projects to a point inside the image, the four crop
coordinates satisfy 0 <= left <= right <= width and 0 <= top <= bottom <=
height. When every projected corner misses the screen this fails (see the
counterexample), and the node variant passes the host's clipped
view_to_region output to crop with no clamping of its own. -/
theorem C2_viewport_crop_within (ctx : ViewportContext) (r : Region)
    (o : VObject) (c : Vec3) (v : Vec2)
    (hr : find_window_region ctx.regions = some r)
    (ho : o ∈ ctx.selected_objects) (hM : o.type = ObjType.MESH)
    (hc : c ∈ o.bound_box)
    (hp : ctx.location_3d_to_region_2d (o.matrix_world c) = some v)
    (hx0 : 0 ≤ v.x) (hxw : v.x ≤ (ctx.screenshotImage.width : ℚ))
    (hy0 : 0 ≤ v.y) (hyh : v.y ≤ (ctx.screenshotImage.height : ℚ)) :
    ∃ box, (capture_viewport_screenshot ctx).1 = Except.ok box ∧
      0 ≤ box.left ∧ box.left ≤ box.right ∧
      box.right ≤ ctx.screenshotImage.width ∧
      0 ≤ box.top ∧ box.top ≤ box.bottom ∧
      box.bottom ≤ ctx.screenshotImage.height := by
  have hof : o ∈ ctx.selected_objects.filter (fun x => x.type == ObjType.MESH) :=
    List.mem_filter.mpr ⟨ho, by simp [hM]⟩
  have hne : (ctx.selected_objects.filter
      (fun x => x.type == ObjType.MESH)).isEmpty = false := by
    cases hfe : ctx.selected_objects.filter (fun x => x.type == ObjType.MESH) with
    | nil => rw [hfe] at hof; cases hof
    | cons a t => rfl
  have hcon := vpObjectFold_contains ctx
    (⟨100000000, 100000000⟩, ⟨-100000000, -100000000⟩)
    (ctx.selected_objects.filter (fun x => x.type == ObjType.MESH))
    o c v hof hc hp
  have hcap : (capture_viewport_screenshot ctx).1 = Except.ok
      (viewportCropBox ctx.screenshotImage
        ((ctx.selected_objects.filter (fun x => x.type == ObjType.MESH)).foldl
          (vpObjectStep ctx)
          (⟨100000000, 100000000⟩, ⟨-100000000, -100000000⟩)).1
        ((ctx.selected_objects.filter (fun x => x.type == ObjType.MESH)).foldl
          (vpObjectStep ctx)
          (⟨100000000, 100000000⟩, ⟨-100000000, -100000000⟩)).2) := by
    unfold capture_viewport_screenshot
    rw [hr]
    simp [hne]
  exact ⟨_, hcap,
    viewportCropBox_within ctx.screenshotImage _ v hcon hx0 hxw hy0 hyh⟩

def c2wCtx : ViewportContext :=
  { regions := [⟨RegionType.WINDOW, fun x y => (x, y)⟩],
    selected_objects := [{ type := ObjType.MESH, bound_box := [⟨0, 0, 0⟩],
                           matrix_world := fun v => v }],
    location_3d_to_region_2d := fun _ => some ⟨100, 100⟩,
    tempdir := "/tmp", screenshotImage := ⟨1920, 1080⟩ }

/-- Witness for C2 at a mesh whose corner projects to (100, 100) inside a
1920 x 1080 screenshot: the capture succeeds with an in-bounds crop. -/
theorem C2_viewport_crop_within_witness :
    ((capture_viewport_screenshot c2wCtx).1).isOk = true := by
  obtain ⟨box, hbox, h⟩ := C2_viewport_crop_within c2wCtx
    ⟨RegionType.WINDOW, fun x y => (x, y)⟩
    { type := ObjType.MESH, bound_box := [⟨0, 0, 0⟩],
      matrix_world := fun v => v }
    ⟨0, 0, 0⟩ ⟨100, 100⟩ rfl (List.mem_singleton.mpr rfl) rfl
    (List.mem_singleton.mpr rfl) rfl (by norm_num)
    (by norm_num [c2wCtx]) (by norm_num) (by norm_num [c2wCtx])
  rw [hbox]
  rfl

def c2cObj : VObject :=
  { type := ObjType.MESH, bound_box := [⟨0, 0, 0⟩],
    matrix_world := fun v => v }

def c2cCtx : ViewportContext :=
  { regions := [⟨RegionType.WINDOW, fun x y => (x, y)⟩],
    selected_objects := [c2cObj],
    location_3d_to_region_2d := fun _ => none,
    tempdir := "/tmp", screenshotImage := ⟨1920, 1080⟩ }

/-- C2 counterexample: when every projected corner falls off-screen (the
projection returns None for the only corner), the sentinels survive the
clamp and crop receives left = 99999950, far beyond the image width 1920,
with right = -99999950 < left, so the claimed in-bounds property fails. -/
theorem C2_counterexample :
    (capture_viewport_screenshot c2cCtx).1 =
      Except.ok ⟨99999950, 100001030, -99999950, -99998870⟩ ∧
    ¬ ((99999950 : ℤ) ≤ c2cCtx.screenshotImage.width) ∧
    ¬ ((99999950 : ℤ) ≤ (-99999950 : ℤ)) := by
  refine ⟨?_, by decide, by decide⟩
  simp [capture_viewport_screenshot, c2cCtx, c2cObj, find_window_region,
    vpObjectStep, vpCornerStep, viewportCropBox, viewport_tmp_path, pyInt,
    min_def, max_def]
  norm_num [Int.ceil_eq_iff]
